import Mathlib

/-!
Verification of the HackTitans frame-inference core against its
natural-language specification.

The JavaScript sources are embedded shallowly:
* JS numbers are modelled as exact rationals (`ℚ`) wherever the code only
  adds, multiplies, compares and rounds (the flows verified here stay inside
  the range where IEEE doubles behave exactly like the rationals, checked
  per claim), and as reals (`ℝ`) where the code calls `Math.atan2` /
  `Math.sqrt`.
* `Math.round` rounds half toward positive infinity, `Math.floor` is the
  integer floor, `Math.min`/`Math.max`/`Math.abs` are the lattice and
  absolute-value operations.
* A possibly-`null` JS value is an `Option`; a possibly-sparse landmark
  array is a `List (Option Landmark)` and `a[i]` is `lmAt`.
* React `useState`/`useRef` cells become fields of explicit state
  structures; each per-frame effect becomes a pure step function on that
  state.
-/

/-- JavaScript `Math.round`: round half toward positive infinity. -/
def jsRound (q : ℚ) : ℤ := ⌊q + 1/2⌋

namespace ScoringSystem

/-- `MODULE_WEIGHTS.speed` from scoringSystem.js. -/
def weightSpeed : ℚ := 25/100

/-- `MODULE_WEIGHTS.strength` from scoringSystem.js. -/
def weightStrength : ℚ := 25/100

/-- `MODULE_WEIGHTS.endurance` from scoringSystem.js. -/
def weightEndurance : ℚ := 20/100

/-- `MODULE_WEIGHTS.skill` from scoringSystem.js. -/
def weightSkill : ℚ := 15/100

/-- `MODULE_WEIGHTS.reaction` from scoringSystem.js. -/
def weightReaction : ℚ := 15/100

/-- `calculateOverallScore` from scoringSystem.js: weighted sum of the five
module scores, clamped to [0,100] and rounded. -/
def calculateOverallScore (speed strength endurance skill reaction : ℚ) : ℤ :=
  jsRound (min 100 (max 0
    (speed * weightSpeed +
     strength * weightStrength +
     endurance * weightEndurance +
     skill * weightSkill +
     reaction * weightReaction)))

/-- `calculatePercentile` from scoringSystem.js: step lookup on score bands. -/
def calculatePercentile (score : ℚ) : ℤ :=
  if score ≥ 95 then 99
  else if score ≥ 90 then 95
  else if score ≥ 80 then 85
  else if score ≥ 70 then 72
  else if score ≥ 60 then 55
  else if score ≥ 50 then 40
  else if score ≥ 40 then 25
  else 10

end ScoringSystem

/-- C1. The claim states that `calculateOverallScore` on
`{speed:80, strength:70, endurance:60, skill:90, reaction:50}` returns 72.
It does not: the weighted sum is 80×.25 + 70×.25 + 60×.2 + 90×.15 + 50×.15
= 70.5, which rounds to 71, not 72. -/
theorem c1_overall_not_72 :
    ScoringSystem.calculateOverallScore 80 70 60 90 50 = 71 ∧ (71 : ℤ) ≠ 72 := by
  refine ⟨?_, by norm_num⟩
  unfold ScoringSystem.calculateOverallScore jsRound ScoringSystem.weightSpeed
    ScoringSystem.weightStrength ScoringSystem.weightEndurance
    ScoringSystem.weightSkill ScoringSystem.weightReaction
  norm_num [min_def, max_def]

/-- C1 (amended). For the module scores
`{speed:80, strength:70, endurance:60, skill:90, reaction:50}`,
`calculateOverallScore` returns 71 (the rounded weighted sum round(70.5)),
and `calculatePercentile` applied to that overall score returns 72
(band ≥70 → 72). -/
theorem c1_overall_score_round_trip :
    ScoringSystem.calculateOverallScore 80 70 60 90 50 = 71 ∧
    ScoringSystem.calculatePercentile
      ((ScoringSystem.calculateOverallScore 80 70 60 90 50 : ℤ) : ℚ) = 72 := by
  have h : ScoringSystem.calculateOverallScore 80 70 60 90 50 = 71 := by
    unfold ScoringSystem.calculateOverallScore jsRound ScoringSystem.weightSpeed
      ScoringSystem.weightStrength ScoringSystem.weightEndurance
      ScoringSystem.weightSkill ScoringSystem.weightReaction
    norm_num [min_def, max_def]
  refine ⟨h, ?_⟩
  rw [h]
  unfold ScoringSystem.calculatePercentile
  norm_num

namespace Geometry

/-- A 2D point: the `{x, y}` objects consumed by calculateAngle.js. -/
structure Point where
  x : ℝ
  y : ℝ

/-- JavaScript `Math.atan2 y x`, modelled as the argument of the complex
number `x + y·i`: range `(−π, π]`, value 0 at the origin, matching
`Math.atan2` on all real inputs (negative zero has no counterpart in `ℝ`). -/
noncomputable def atan2 (y x : ℝ) : ℝ := Complex.arg (x + y * Complex.I)

/-- The local `radians` of `calculateAngle` in calculateAngle.js. -/
noncomputable def angleRadians (a b c : Point) : ℝ :=
  atan2 (c.y - b.y) (c.x - b.x) - atan2 (a.y - b.y) (a.x - b.x)

/-- The local `angle` of `calculateAngle` in calculateAngle.js, before the
reflex correction: `Math.abs(radians * (180 / Math.PI))`. -/
noncomputable def angleRaw (a b c : Point) : ℝ :=
  |angleRadians a b c * (180 / Real.pi)|

/-- `calculateAngle` from calculateAngle.js: angle in degrees at vertex `b`
of the triangle a-b-c, with reflex angles folded to `360 − angle`. -/
noncomputable def calculateAngle (a b c : Point) : ℝ :=
  if angleRaw a b c > 180 then 360 - angleRaw a b c else angleRaw a b c

lemma atan2_abs_le_pi (y x : ℝ) : |atan2 y x| ≤ Real.pi :=
  Complex.abs_arg_le_pi _

lemma angleRaw_nonneg (a b c : Point) : 0 ≤ angleRaw a b c := abs_nonneg _

lemma angleRaw_le_360 (a b c : Point) : angleRaw a b c ≤ 360 := by
  have hrad : |angleRadians a b c| ≤ 2 * Real.pi := by
    have h1 := atan2_abs_le_pi (c.y - b.y) (c.x - b.x)
    have h2 := atan2_abs_le_pi (a.y - b.y) (a.x - b.x)
    calc |angleRadians a b c|
        = |atan2 (c.y - b.y) (c.x - b.x) + -(atan2 (a.y - b.y) (a.x - b.x))| := by
          rw [angleRadians, sub_eq_add_neg]
      _ ≤ |atan2 (c.y - b.y) (c.x - b.x)| + |-(atan2 (a.y - b.y) (a.x - b.x))| :=
          abs_add _ _
      _ = |atan2 (c.y - b.y) (c.x - b.x)| + |atan2 (a.y - b.y) (a.x - b.x)| := by
          rw [abs_neg]
      _ ≤ Real.pi + Real.pi := add_le_add h1 h2
      _ = 2 * Real.pi := by ring
  have hpos : (0:ℝ) < 180 / Real.pi := by positivity
  calc angleRaw a b c
      = |angleRadians a b c| * (180 / Real.pi) := by
        rw [angleRaw, abs_mul, abs_of_pos hpos]
    _ ≤ (2 * Real.pi) * (180 / Real.pi) := by
        exact mul_le_mul_of_nonneg_right hrad (le_of_lt hpos)
    _ = 360 := by
        field_simp
        ring

end Geometry

/-- C4. For all numeric point inputs a, b, c, `calculateAngle` (the
`angleAtVertex` of the spec) returns a value in [0, 180]; and at the
concrete input ({x:0,y:0}, {x:0,y:1}, {x:1,y:1}) it returns 90. -/
theorem c4_angle_at_vertex_range_and_example :
    (∀ a b c : Geometry.Point,
        0 ≤ Geometry.calculateAngle a b c ∧ Geometry.calculateAngle a b c ≤ 180) ∧
    Geometry.calculateAngle ⟨0, 0⟩ ⟨0, 1⟩ ⟨1, 1⟩ = 90 := by
  constructor
  · intro a b c
    have h0 := Geometry.angleRaw_nonneg a b c
    have h360 := Geometry.angleRaw_le_360 a b c
    unfold Geometry.calculateAngle
    split_ifs with h
    · constructor
      · linarith
      · linarith
    · constructor
      · exact h0
      · linarith [not_lt.mp h]
  · have hc : Geometry.atan2 (1 - 1) (1 - 0) = 0 := by
      unfold Geometry.atan2
      norm_num
    have ha : Geometry.atan2 (0 - 1) (0 - 0) = -(Real.pi / 2) := by
      unfold Geometry.atan2
      norm_num
    have hrad : Geometry.angleRadians ⟨0, 0⟩ ⟨0, 1⟩ ⟨1, 1⟩ = Real.pi / 2 := by
      unfold Geometry.angleRadians
      simp only []
      rw [hc, ha]
      ring
    have hraw : Geometry.angleRaw ⟨0, 0⟩ ⟨0, 1⟩ ⟨1, 1⟩ = 90 := by
      unfold Geometry.angleRaw
      rw [hrad]
      have hπ : Real.pi ≠ 0 := Real.pi_ne_zero
      have : Real.pi / 2 * (180 / Real.pi) = 90 := by
        field_simp
        ring
      rw [this]
      norm_num
    unfold Geometry.calculateAngle
    rw [hraw]
    norm_num

namespace CheatDetection

/-- One MediaPipe landmark as consumed by cheatDetection.js. -/
structure Landmark where
  x : ℚ
  y : ℚ
  visibility : ℚ
deriving DecidableEq

/-- A possibly sparse landmark array: `a[i]` may be `undefined` (a hole). -/
abbrev Landmarks := List (Option Landmark)

/-- JS array indexing `landmarks[i]`: `none` when out of range or a hole. -/
def lmAt (lms : Landmarks) (i : ℕ) : Option Landmark := (lms.get? i).join

/-- JS `o?.visibility > 0.3` (`undefined > 0.3` is false). -/
def visAbove (o : Option Landmark) (t : ℚ) : Bool :=
  match o with
  | some lm => lm.visibility > t
  | none => false

/-- JS truthiness of the `expectedActivity` string parameter
(`null`/`undefined`/empty string are falsy). -/
def strTruthy (s : Option String) : Bool :=
  match s with
  | some str => str ≠ ""
  | none => false

/-- `checkSinglePerson` from cheatDetection.js: of a fixed 9-point subset,
at least 3 landmarks with visibility above 0.3. -/
def checkSinglePerson (lms : Option Landmarks) : Bool :=
  match lms with
  | none => false
  | some l =>
    if l.length = 0 then false
    else (([0, 2, 5, 11, 12, 13, 14, 23, 24] : List ℕ).filter
      (fun i => visAbove (lmAt l i) (3/10))).length ≥ 3

/-- `checkNoExtraPeople` from cheatDetection.js: with fewer than 25
landmarks (or missing shoulders/hips) the check passes; otherwise flag when
the shoulder or hip width exceeds 0.6 of the frame. -/
def checkNoExtraPeople (lms : Option Landmarks) : Bool :=
  match lms with
  | none => true
  | some l =>
    if l.length < 25 then true
    else
      match lmAt l 11, lmAt l 12, lmAt l 23, lmAt l 24 with
      | some lShoulder, some rShoulder, some lHip, some rHip =>
        let shoulderWidth := |lShoulder.x - rShoulder.x|
        let hipWidth := |lHip.x - rHip.x|
        if shoulderWidth > 6/10 ∨ hipWidth > 6/10 then false else true
      | _, _, _, _ => true

/-- `checkFaceVisible` from cheatDetection.js. -/
def checkFaceVisible (lms : Option Landmarks) : Bool :=
  match lms with
  | none => false
  | some l =>
    visAbove (lmAt l 0) (3/10) && visAbove (lmAt l 2) (3/10) &&
      visAbove (lmAt l 5) (3/10)

/-- Result object of `checkCameraAngle`. -/
structure CameraCheck where
  valid : Bool
  issue : String
deriving DecidableEq

/-- `checkCameraAngle` from cheatDetection.js: person roughly centered,
not too close, not too far. -/
def checkCameraAngle (lms : Option Landmarks) : CameraCheck :=
  match lms with
  | none => ⟨true, ""⟩
  | some l =>
    match lmAt l 0 with
    | none => ⟨true, ""⟩
    | some nose =>
      if nose.visibility < 3/10 then ⟨true, ""⟩
      else if nose.x < 1/10 ∨ nose.x > 9/10 then
        ⟨false, "Person too far to the side — center the camera"⟩
      else if nose.y < 5/100 then
        ⟨false, "Camera too close — step back"⟩
      else
        match lmAt l 23, lmAt l 24 with
        | some lHip, some rHip =>
          if lHip.visibility > 3/10 ∧ rHip.visibility > 3/10 then
            if |nose.y - (lHip.y + rHip.y) / 2| < 1/10 then
              ⟨false, "Camera too far — move closer"⟩
            else ⟨true, ""⟩
          else ⟨true, ""⟩
        | _, _ => ⟨true, ""⟩

/-- The module-level `prevLandmarkPositions` snapshot of cheatDetection.js,
made explicit state. -/
structure VideoSnap where
  noseX : ℚ
  noseY : ℚ
  sX : ℚ
  sY : ℚ
deriving DecidableEq

/-- `checkForVideoCuts` from cheatDetection.js. The source flags a cut when
`Math.sqrt(dx² + dy²) > 0.3` for the nose or the left shoulder; this
embedding compares the squared displacement against 0.09, which is
equivalent (lemma `sqrt_gt_three_tenths_iff` below). Returns the cut flag
together with the updated snapshot state. -/
def checkForVideoCuts (prev : Option VideoSnap) (lms : Option Landmarks) :
    Bool × Option VideoSnap :=
  match lms with
  | none => (false, none)
  | some l =>
    match lmAt l 0, lmAt l 11 with
    | some nose, some lShoulder =>
      let current : VideoSnap := ⟨nose.x, nose.y, lShoulder.x, lShoulder.y⟩
      match prev with
      | some p =>
        let noseDist2 := (current.noseX - p.noseX) ^ 2 + (current.noseY - p.noseY) ^ 2
        let shoulderDist2 := (current.sX - p.sX) ^ 2 + (current.sY - p.sY) ^ 2
        if noseDist2 > 9/100 ∨ shoulderDist2 > 9/100 then (true, some current)
        else (false, some current)
      | none => (false, some current)
    | _, _ => (false, none)

/-- JS `lHip?.y || 0.5`: 0.5 when the landmark is missing, and also when
its `y` is exactly 0 (JS `||` treats 0 as falsy). -/
def jsOrHalf (o : Option Landmark) : ℚ :=
  match o with
  | some lm => if lm.y = 0 then 1/2 else lm.y
  | none => 1/2

/-- Result object of `checkMalpractice`. -/
structure MalCheck where
  malpractice : Bool
  reason : String
deriving DecidableEq

/-- `checkMalpractice` from cheatDetection.js: activity-specific geometric
sanity test over the named landmarks. -/
def checkMalpractice (expectedActivity : Option String) (lms : Option Landmarks) :
    MalCheck :=
  match lms with
  | none => ⟨false, ""⟩
  | some l =>
    if ¬ strTruthy expectedActivity then ⟨false, ""⟩
    else
      let act := expectedActivity.getD ""
      match lmAt l 0, lmAt l 11, lmAt l 12 with
      | some nose, some lShoulder, some _rShoulder =>
        if nose.visibility < 3/10 ∨ lShoulder.visibility < 3/10 then ⟨false, ""⟩
        else
          let lHip := lmAt l 23
          let rHip := lmAt l 24
          let lKnee := lmAt l 25
          let lAnkle := lmAt l 27
          let rAnkle := lmAt l 28
          let torsoAngle := |nose.y - (jsOrHalf lHip + jsOrHalf rHip) / 2|
          if act = "push-ups" ∨ act = "pushups" then
            match lHip, rHip with
            | some lh, some rh =>
              if lh.visibility > 3/10 ∧ rh.visibility > 3/10 then
                let hipY := (lh.y + rh.y) / 2
                if nose.y < hipY - 25/100 ∧ torsoAngle > 3/10 then
                  ⟨true, "You appear to be standing — get into push-up position"⟩
                else ⟨false, ""⟩
              else ⟨false, ""⟩
            | _, _ => ⟨false, ""⟩
          else if act = "squats" then
            match lHip, rHip with
            | some lh, some rh =>
              if lh.visibility > 3/10 then
                let hipY := (lh.y + rh.y) / 2
                if |nose.y - hipY| < 5/100 then
                  ⟨true, "Incorrect position — stand upright for squats"⟩
                else ⟨false, ""⟩
              else ⟨false, ""⟩
            | _, _ => ⟨false, ""⟩
          else if act = "wall-sit" then
            match lKnee, lHip, lAnkle with
            | some lk, some lh, some la =>
              if lk.visibility > 3/10 ∧ la.visibility > 3/10 then
                if |lk.y - lh.y| < 2/100 then
                  ⟨true, "Sit down against the wall — knees should be bent"⟩
                else ⟨false, ""⟩
              else ⟨false, ""⟩
            | _, _, _ => ⟨false, ""⟩
          else if act = "vertical-jump" ∨ act = "broad-jump" then
            match lAnkle, rAnkle with
            | some la, some ra =>
              if la.visibility > 3/10 then
                let ankleY := (la.y + ra.y) / 2
                if |ankleY - nose.y| < 1/10 then
                  ⟨true, "Stand upright for jump test"⟩
                else ⟨false, ""⟩
              else ⟨false, ""⟩
            | _, _ => ⟨false, ""⟩
          else ⟨false, ""⟩
      | _, _, _ => ⟨false, ""⟩

/-- `checkBrightness` from cheatDetection.js computes the mean luma of a
fixed 50×50 pixel window and returns `mean > 30`. Pixel access is outside
this embedding, so the sampled mean is the input; the source catches
sampling failures and returns `true`, which coincides with a passing mean. -/
def checkBrightness (meanLuma : ℚ) : Bool := meanLuma > 30

/-- The result object built by `runCheatDetection`. -/
structure CheatResults where
  isValid : Bool
  warnings : List String
  alerts : List String
  shouldShowRedOverlay : Bool
deriving DecidableEq

/-- Step 1 of `runCheatDetection`: extra-people critical alert. -/
def extraPeopleStep (lms : Option Landmarks) (r : CheatResults) : CheatResults :=
  if ¬ checkNoExtraPeople lms then
    { r with alerts := r.alerts ++ ["⚠ Multiple people detected — only one person allowed"],
             shouldShowRedOverlay := true, isValid := false }
  else r

/-- Step 2 of `runCheatDetection`: no-person advisory warning. -/
def singlePersonStep (lms : Option Landmarks) (r : CheatResults) : CheatResults :=
  if ¬ checkSinglePerson lms then
    { r with warnings := r.warnings ++ ["No person detected in frame"] }
  else r

/-- Step 3 of `runCheatDetection`: camera-angle critical alert
(no change to `isValid`). -/
def cameraAngleStep (lms : Option Landmarks) (r : CheatResults) : CheatResults :=
  if ¬ (checkCameraAngle lms).valid then
    { r with alerts := r.alerts ++ [(checkCameraAngle lms).issue],
             shouldShowRedOverlay := true }
  else r

/-- Step 4 of `runCheatDetection`: video-cut critical alert. -/
def videoCutStep (cut : Bool) (r : CheatResults) : CheatResults :=
  if cut then
    { r with alerts := r.alerts ++ ["⚠ Suspicious video cut/edit detected"],
             shouldShowRedOverlay := true, isValid := false }
  else r

/-- Step 5 of `runCheatDetection`: malpractice critical alert
(no change to `isValid`). -/
def malpracticeStep (lms : Option Landmarks) (expectedActivity : Option String)
    (r : CheatResults) : CheatResults :=
  if strTruthy expectedActivity then
    if (checkMalpractice expectedActivity lms).malpractice then
      { r with alerts := r.alerts ++ ["🚫 " ++ (checkMalpractice expectedActivity lms).reason],
               shouldShowRedOverlay := true }
    else r
  else r

/-- Step 6 of `runCheatDetection`: face-visibility advisory warning. -/
def faceVisibleStep (lms : Option Landmarks) (r : CheatResults) : CheatResults :=
  match lms with
  | some _ =>
    if ¬ checkFaceVisible lms then
      { r with warnings := r.warnings ++ ["Face not clearly visible"] }
    else r
  | none => r

/-- Step 7 of `runCheatDetection`: brightness check — pushes an advisory
warning but also clears `isValid`. -/
def brightnessStep (ctxLuma : Option ℚ) (r : CheatResults) : CheatResults :=
  match ctxLuma with
  | some luma =>
    if ¬ checkBrightness luma then
      { r with isValid := false,
               warnings := r.warnings ++ ["Insufficient lighting detected"] }
    else r
  | none => r

/-- `runCheatDetection` from cheatDetection.js, with the module-level
video-cut snapshot passed and returned explicitly, and the canvas context
represented by the sampled mean luma (`none` = no `ctx` supplied). The
unused `prevBrightness` parameter of the source is omitted. Checks run in
source order (each step is one numbered block of the source function):
extra people, single person, camera angle, video cuts, malpractice, face
visibility, brightness. -/
def runCheatDetection (lms : Option Landmarks) (ctxLuma : Option ℚ)
    (expectedActivity : Option String) (prevSnap : Option VideoSnap) :
    CheatResults × Option VideoSnap :=
  let cutCheck := checkForVideoCuts prevSnap lms
  (brightnessStep ctxLuma
    (faceVisibleStep lms
      (malpracticeStep lms expectedActivity
        (videoCutStep cutCheck.1
          (cameraAngleStep lms
            (singlePersonStep lms
              (extraPeopleStep lms ⟨true, [], [], false⟩)))))),
   cutCheck.2)

end CheatDetection

namespace CheatDetection

/-- Bridge between the source's `Math.sqrt(d) > 0.3` and the squared
comparison `d > 0.09` used in the executable embedding. -/
lemma sqrt_gt_three_tenths_iff (d : ℚ) :
    (3/10 : ℝ) < Real.sqrt (d : ℝ) ↔ (9/100 : ℚ) < d := by
  rw [Real.lt_sqrt (by norm_num : (0:ℝ) ≤ 3/10)]
  constructor
  · intro h
    have : ((9/100 : ℚ) : ℝ) < (d : ℝ) := by
      calc ((9/100 : ℚ) : ℝ) = (3/10 : ℝ) ^ 2 := by norm_num
        _ < (d : ℝ) := h
    exact_mod_cast this
  · intro h
    have : ((9/100 : ℚ) : ℝ) < (d : ℝ) := by exact_mod_cast h
    calc (3/10 : ℝ) ^ 2 = ((9/100 : ℚ) : ℝ) := by norm_num
      _ < (d : ℝ) := this

end CheatDetection

/-- C6. With a previous-frame snapshot in place and the current frame's
nose and left shoulder present, `checkForVideoCuts` reports `cut = true`
exactly when the nose or the left shoulder moved more than 0.3 normalized
units (Euclidean distance, as the source's `Math.sqrt` comparison) from
the snapshot. -/
theorem c6_video_cut_threshold (p : CheatDetection.VideoSnap)
    (l : CheatDetection.Landmarks) (nose lShoulder : CheatDetection.Landmark)
    (h0 : CheatDetection.lmAt l 0 = some nose)
    (h11 : CheatDetection.lmAt l 11 = some lShoulder) :
    ((CheatDetection.checkForVideoCuts (some p) (some l)).1 = true ↔
      Real.sqrt (((nose.x - p.noseX : ℚ) : ℝ) ^ 2 + ((nose.y - p.noseY : ℚ) : ℝ) ^ 2)
          > 3/10 ∨
      Real.sqrt (((lShoulder.x - p.sX : ℚ) : ℝ) ^ 2 + ((lShoulder.y - p.sY : ℚ) : ℝ) ^ 2)
          > 3/10) := by
  have hn : Real.sqrt (((nose.x - p.noseX : ℚ) : ℝ) ^ 2 + ((nose.y - p.noseY : ℚ) : ℝ) ^ 2)
      > 3/10 ↔ (9/100 : ℚ) < (nose.x - p.noseX) ^ 2 + (nose.y - p.noseY) ^ 2 := by
    have hcast : (((nose.x - p.noseX) ^ 2 + (nose.y - p.noseY) ^ 2 : ℚ) : ℝ)
        = ((nose.x - p.noseX : ℚ) : ℝ) ^ 2 + ((nose.y - p.noseY : ℚ) : ℝ) ^ 2 := by
      push_cast
      ring
    rw [← hcast]
    exact CheatDetection.sqrt_gt_three_tenths_iff _
  have hs : Real.sqrt (((lShoulder.x - p.sX : ℚ) : ℝ) ^ 2 + ((lShoulder.y - p.sY : ℚ) : ℝ) ^ 2)
      > 3/10 ↔ (9/100 : ℚ) < (lShoulder.x - p.sX) ^ 2 + (lShoulder.y - p.sY) ^ 2 := by
    have hcast : (((lShoulder.x - p.sX) ^ 2 + (lShoulder.y - p.sY) ^ 2 : ℚ) : ℝ)
        = ((lShoulder.x - p.sX : ℚ) : ℝ) ^ 2 + ((lShoulder.y - p.sY : ℚ) : ℝ) ^ 2 := by
      push_cast
      ring
    rw [← hcast]
    exact CheatDetection.sqrt_gt_three_tenths_iff _
  rw [hn, hs]
  unfold CheatDetection.checkForVideoCuts
  dsimp only
  rw [h0, h11]
  dsimp only
  split_ifs with hcond
  · simp only [true_iff]
    exact hcond
  · simp only [false_iff]
    exact hcond

/-- Previous-frame snapshot used in the C6 witness. -/
def snapC6 : CheatDetection.VideoSnap := ⟨3/10, 1/2, 3/10, 1/2⟩

/-- Frame whose nose x jumped from 0.3 to 0.9 (Δ = 0.6). -/
def frameJump : CheatDetection.Landmarks :=
  [some ⟨9/10, 1/2, 9/10⟩,
   none, none, none, none, none, none, none, none, none, none,
   some ⟨3/10, 1/2, 9/10⟩]

/-- Frame whose nose x moved from 0.3 to 0.35 (Δ = 0.05). -/
def frameSmall : CheatDetection.Landmarks :=
  [some ⟨35/100, 1/2, 9/10⟩,
   none, none, none, none, none, none, none, none, none, none,
   some ⟨3/10, 1/2, 9/10⟩]

/-- C6 witness: the nose-x jump of 0.6 yields `cut = true`, a jump of 0.05
yields `cut = false`. -/
theorem c6_video_cut_threshold_witness :
    (CheatDetection.checkForVideoCuts (some snapC6) (some frameJump)).1 = true ∧
    (CheatDetection.checkForVideoCuts (some snapC6) (some frameSmall)).1 = false := by
  constructor
  · apply (c6_video_cut_threshold snapC6 frameJump ⟨9/10, 1/2, 9/10⟩ ⟨3/10, 1/2, 9/10⟩
      rfl rfl).mpr
    left
    simp only [snapC6]
    have heq : (((9:ℚ)/10 - 3/10 : ℚ) : ℝ) ^ 2 + (((1:ℚ)/2 - 1/2 : ℚ) : ℝ) ^ 2
        = (3/5 : ℝ) ^ 2 := by
      push_cast
      norm_num
    show Real.sqrt _ > 3/10
    rw [heq, Real.sqrt_sq (by norm_num : (0:ℝ) ≤ 3/5)]
    norm_num
  · have h := c6_video_cut_threshold snapC6 frameSmall ⟨35/100, 1/2, 9/10⟩
      ⟨3/10, 1/2, 9/10⟩ rfl rfl
    simp only [snapC6] at h
    have hnot : ¬ (Real.sqrt ((((35:ℚ)/100 - 3/10 : ℚ) : ℝ) ^ 2 +
          (((1:ℚ)/2 - 1/2 : ℚ) : ℝ) ^ 2) > 3/10 ∨
        Real.sqrt ((((3:ℚ)/10 - 3/10 : ℚ) : ℝ) ^ 2 +
          (((1:ℚ)/2 - 1/2 : ℚ) : ℝ) ^ 2) > 3/10) := by
      have e1 : (((35:ℚ)/100 - 3/10 : ℚ) : ℝ) ^ 2 + (((1:ℚ)/2 - 1/2 : ℚ) : ℝ) ^ 2
          = (1/20 : ℝ) ^ 2 := by
        push_cast
        norm_num
      have e2 : (((3:ℚ)/10 - 3/10 : ℚ) : ℝ) ^ 2 + (((1:ℚ)/2 - 1/2 : ℚ) : ℝ) ^ 2
          = (0 : ℝ) ^ 2 := by
        push_cast
        norm_num
      rw [e1, e2, Real.sqrt_sq (by norm_num : (0:ℝ) ≤ 1/20),
        Real.sqrt_sq (le_refl (0:ℝ))]
      push_neg
      norm_num
    rcases hb : (CheatDetection.checkForVideoCuts (some snapC6) (some frameSmall)).1 with _ | _
    · rfl
    · exact absurd (h.mp hb) hnot

/-- C10. For every landmark list with fewer than 25 entries, or in which
any of the left/right shoulder (11, 12) or left/right hip (23, 24)
landmarks is missing, `checkNoExtraPeople` returns true, so the
multi-person alert cannot fire on incomplete landmark input. -/
theorem c10_no_extra_people_on_incomplete (lms : CheatDetection.Landmarks)
    (h : lms.length < 25 ∨ CheatDetection.lmAt lms 11 = none ∨
         CheatDetection.lmAt lms 12 = none ∨ CheatDetection.lmAt lms 23 = none ∨
         CheatDetection.lmAt lms 24 = none) :
    CheatDetection.checkNoExtraPeople (some lms) = true := by
  unfold CheatDetection.checkNoExtraPeople
  dsimp only
  by_cases hl : lms.length < 25
  · simp [hl]
  · rcases e11 : CheatDetection.lmAt lms 11 with _ | a11 <;>
    rcases e12 : CheatDetection.lmAt lms 12 with _ | a12 <;>
    rcases e23 : CheatDetection.lmAt lms 23 with _ | a23 <;>
    rcases e24 : CheatDetection.lmAt lms 24 with _ | a24 <;>
      simp_all

/-- C10 witness: the empty landmark list is never flagged as extra people. -/
theorem c10_no_extra_people_witness :
    CheatDetection.checkNoExtraPeople (some ([] : CheatDetection.Landmarks)) = true :=
  c10_no_extra_people_on_incomplete [] (Or.inl (by norm_num))

/-- A complete, well-framed 33-landmark pose: centered nose, visible face,
normal shoulder/hip widths. Used to show that the lighting branch alone
clears `isValid`. -/
def goodPose : CheatDetection.Landmarks :=
  [some ⟨1/2, 3/10, 9/10⟩,        -- 0 nose
   some ⟨1/2, 28/100, 9/10⟩,      -- 1
   some ⟨48/100, 28/100, 9/10⟩,   -- 2 left eye
   some ⟨47/100, 28/100, 9/10⟩,   -- 3
   some ⟨46/100, 28/100, 9/10⟩,   -- 4
   some ⟨52/100, 28/100, 9/10⟩,   -- 5 right eye
   some ⟨53/100, 28/100, 9/10⟩,   -- 6
   some ⟨54/100, 28/100, 9/10⟩,   -- 7
   some ⟨45/100, 3/10, 9/10⟩,     -- 8
   some ⟨55/100, 3/10, 9/10⟩,     -- 9
   some ⟨1/2, 33/100, 9/10⟩,      -- 10
   some ⟨2/5, 2/5, 9/10⟩,         -- 11 left shoulder
   some ⟨3/5, 2/5, 9/10⟩,         -- 12 right shoulder
   some ⟨38/100, 1/2, 9/10⟩,      -- 13 left elbow
   some ⟨62/100, 1/2, 9/10⟩,      -- 14 right elbow
   some ⟨37/100, 58/100, 9/10⟩,   -- 15 left wrist
   some ⟨63/100, 58/100, 9/10⟩,   -- 16 right wrist
   some ⟨36/100, 6/10, 9/10⟩,     -- 17
   some ⟨64/100, 6/10, 9/10⟩,     -- 18
   some ⟨36/100, 61/100, 9/10⟩,   -- 19
   some ⟨64/100, 61/100, 9/10⟩,   -- 20
   some ⟨37/100, 59/100, 9/10⟩,   -- 21
   some ⟨63/100, 59/100, 9/10⟩,   -- 22
   some ⟨45/100, 3/5, 9/10⟩,      -- 23 left hip
   some ⟨55/100, 3/5, 9/10⟩,      -- 24 right hip
   some ⟨45/100, 75/100, 9/10⟩,   -- 25 left knee
   some ⟨55/100, 75/100, 9/10⟩,   -- 26 right knee
   some ⟨45/100, 9/10, 9/10⟩,     -- 27 left ankle
   some ⟨55/100, 9/10, 9/10⟩,     -- 28 right ankle
   some ⟨45/100, 92/100, 9/10⟩,   -- 29 left heel
   some ⟨55/100, 92/100, 9/10⟩,   -- 30 right heel
   some ⟨45/100, 95/100, 9/10⟩,   -- 31 left foot index
   some ⟨55/100, 95/100, 9/10⟩]   -- 32 right foot index

/-- C2 counterexample. On a complete, well-framed pose with a dark frame
(mean luma 10), `runCheatDetection` returns `isValid = false` with an
empty `alerts` array: the advisory low-light warning alone invalidates the
frame, so `isValid = false` does not require a severity-critical alert
condition. -/
theorem c2_counterexample :
    ((CheatDetection.runCheatDetection (some goodPose) (some 10) none none).1.isValid
        = false) ∧
    (CheatDetection.runCheatDetection (some goodPose) (some 10) none none).1.alerts
        = [] := by
  norm_num [CheatDetection.runCheatDetection, CheatDetection.checkNoExtraPeople,
    CheatDetection.checkSinglePerson, CheatDetection.checkCameraAngle,
    CheatDetection.checkForVideoCuts, CheatDetection.checkFaceVisible,
    CheatDetection.checkBrightness, CheatDetection.strTruthy,
    CheatDetection.checkMalpractice, CheatDetection.lmAt, CheatDetection.visAbove,
    CheatDetection.extraPeopleStep, CheatDetection.singlePersonStep,
    CheatDetection.cameraAngleStep, CheatDetection.videoCutStep,
    CheatDetection.malpracticeStep, CheatDetection.faceVisibleStep,
    CheatDetection.brightnessStep, goodPose, List.filter, abs]

/-- C2 (amended). For every frame input, `runCheatDetection` reports
`isValid = false` exactly when the extra-person check fails, the video-cut
check fires, or a canvas context is supplied and the brightness check
fails. Bad framing and malpractice raise critical alerts without clearing
`isValid`, and the advisory low-light warning does clear it by itself. -/
theorem c2_is_valid_characterization (lms : Option CheatDetection.Landmarks)
    (ctxLuma : Option ℚ) (ea : Option String)
    (prev : Option CheatDetection.VideoSnap) :
    ((CheatDetection.runCheatDetection lms ctxLuma ea prev).1.isValid = false ↔
      (CheatDetection.checkNoExtraPeople lms = false ∨
       (CheatDetection.checkForVideoCuts prev lms).1 = true ∨
       ∃ luma, ctxLuma = some luma ∧ CheatDetection.checkBrightness luma = false)) := by
  have h2 : ∀ r, (CheatDetection.singlePersonStep lms r).isValid = r.isValid := by
    intro r
    unfold CheatDetection.singlePersonStep
    split <;> rfl
  have h3 : ∀ r, (CheatDetection.cameraAngleStep lms r).isValid = r.isValid := by
    intro r
    unfold CheatDetection.cameraAngleStep
    split <;> rfl
  have h5 : ∀ r, (CheatDetection.malpracticeStep lms ea r).isValid = r.isValid := by
    intro r
    unfold CheatDetection.malpracticeStep
    split
    · split <;> rfl
    · rfl
  have h6 : ∀ r, (CheatDetection.faceVisibleStep lms r).isValid = r.isValid := by
    intro r
    unfold CheatDetection.faceVisibleStep
    cases lms with
    | none => rfl
    | some l =>
      dsimp only
      split <;> rfl
  have h1 : (CheatDetection.extraPeopleStep lms ⟨true, [], [], false⟩).isValid
      = CheatDetection.checkNoExtraPeople lms := by
    unfold CheatDetection.extraPeopleStep
    rcases he : CheatDetection.checkNoExtraPeople lms with _ | _ <;> simp [he]
  have h4 : ∀ r, (CheatDetection.videoCutStep (CheatDetection.checkForVideoCuts prev lms).1
      r).isValid = (!(CheatDetection.checkForVideoCuts prev lms).1 && r.isValid) := by
    intro r
    unfold CheatDetection.videoCutStep
    rcases hc : (CheatDetection.checkForVideoCuts prev lms).1 with _ | _ <;> simp [hc]
  have h7 : ∀ r, (CheatDetection.brightnessStep ctxLuma r).isValid
      = ((match ctxLuma with
          | some luma => CheatDetection.checkBrightness luma
          | none => true) && r.isValid) := by
    intro r
    unfold CheatDetection.brightnessStep
    cases ctxLuma with
    | none => simp
    | some luma =>
      rcases hb : CheatDetection.checkBrightness luma with _ | _ <;> simp [hb]
  unfold CheatDetection.runCheatDetection
  dsimp only
  rw [h7, h6, h5, h4, h3, h2, h1]
  cases ctxLuma with
  | none =>
    rcases he : CheatDetection.checkNoExtraPeople lms with _ | _ <;>
      rcases hc : (CheatDetection.checkForVideoCuts prev lms).1 with _ | _ <;>
        simp [he, hc]
  | some luma =>
    rcases he : CheatDetection.checkNoExtraPeople lms with _ | _ <;>
      rcases hc : (CheatDetection.checkForVideoCuts prev lms).1 with _ | _ <;>
        rcases hb : CheatDetection.checkBrightness luma with _ | _ <;>
          simp [he, hc, hb]

/-- The three-valued phase ref (`idle`/`up`/`down`) used by the rep-counting
state machines. -/
inductive Phase3 where
  | idle
  | up
  | down
deriving DecidableEq

namespace ActivityLogic

/-- The `metrics` React state of useActivityLogic.js. The display-only
`jointAngles` object is omitted; `phase` here is the metrics display phase
(`idle`/`active`/`rest`), distinct from the phase ref. -/
structure Metrics where
  repCount : ℕ
  formScore : ℤ
  holdDuration : ℤ
  stabilityScore : ℤ
  postureAccuracy : ℤ
  depthPercent : ℤ
  jumpDistance : ℤ
  phase : String
  formQuality : String
deriving DecidableEq

/-- The `jumpStartRef` snapshot of useActivityLogic.js. -/
structure JumpSnap where
  hipX : ℚ
  hipY : ℚ
  ankleX : ℚ
  ankleY : ℚ
deriving DecidableEq

/-- One session's mutable state: the `metrics`/`formScores` React state plus
the refs (`phaseRef`, `startTimeRef`, `stableFramesRef`, `totalFramesRef`,
`jumpStartRef`, `prevHipYRef`). Times are `Date.now()` milliseconds. -/
structure SessionState where
  metrics : Metrics
  formScores : List ℤ
  phaseRef : Phase3
  startTime : Option ℚ
  stableFrames : ℕ
  totalFrames : ℕ
  jumpStart : Option JumpSnap
  prevHipY : Option ℚ
deriving DecidableEq

/-- The per-frame geometric features each processor computes from the named
landmarks at its top (`calculateAngle` on hip-knee-ankle resp.
knee-hip-shoulder, hip/ankle midpoints), plus the frame's `Date.now()`.
The angle extraction itself is the `Geometry` embedding; the state
machines consume the extracted features. -/
structure FrameFeatures where
  leftKneeAngle : ℚ
  rightKneeAngle : ℚ
  leftTorsoAngle : ℚ
  rightTorsoAngle : ℚ
  hipMidX : ℚ
  hipMidY : ℚ
  ankleMidX : ℚ
  ankleMidY : ℚ
  now : ℚ
deriving DecidableEq

/-- The session state right after `startSession` (`resetMetrics` plus
`phaseRef = 'idle'`). -/
def initialState : SessionState :=
  ⟨⟨0, 0, 0, 0, 0, 0, 0, "idle", "good"⟩, [], .idle, none, 0, 0, none, none⟩

/-- `processWallSit` from useActivityLogic.js. -/
def processWallSit (s : SessionState) (f : FrameFeatures) : SessionState :=
  let avgKneeAngle := (f.leftKneeAngle + f.rightKneeAngle) / 2
  let isValidPosture := avgKneeAngle ≥ 85 ∧ avgKneeAngle ≤ 100
  let isWarning := avgKneeAngle ≥ 75 ∧ avgKneeAngle ≤ 110
  let stableFrames' := if isValidPosture then s.stableFrames + 1 else s.stableFrames
  let startTime' :=
    if isValidPosture then
      match s.startTime with
      | none => some f.now
      | some t => some t
    else s.startTime
  let holdDuration : ℤ :=
    match startTime' with
    | some t => ⌊(f.now - t) / 1000⌋
    | none => 0
  let stabilityScore : ℤ :=
    if 0 < s.totalFrames then
      jsRound ((stableFrames' : ℚ) / (s.totalFrames : ℚ) * 100)
    else 0
  let postureAccuracy : ℤ := if isValidPosture then 100 else if isWarning then 70 else 30
  { s with
    stableFrames := stableFrames',
    startTime := startTime',
    metrics := { s.metrics with
      holdDuration := holdDuration,
      stabilityScore := stabilityScore,
      postureAccuracy := postureAccuracy,
      phase := if isValidPosture then "active" else "rest",
      formQuality := if isValidPosture then "good" else if isWarning then "warning" else "bad",
      formScore := stabilityScore } }

/-- `processSitUps` from useActivityLogic.js. -/
def processSitUps (s : SessionState) (f : FrameFeatures) : SessionState :=
  let avgTorsoAngle := (f.leftTorsoAngle + f.rightTorsoAngle) / 2
  let isLying := avgTorsoAngle > 140
  let isUpright := avgTorsoAngle < 90
  let step :=
    if s.phaseRef = .idle ∧ isLying then (Phase3.down, false)
    else if s.phaseRef = .down ∧ isUpright then (Phase3.up, false)
    else if s.phaseRef = .up ∧ isLying then (Phase3.down, true)
    else (s.phaseRef, false)
  let newPhase := step.1
  let repCounted := step.2
  let repForm : ℤ :=
    min 100 (jsRound
      ((if avgTorsoAngle < 70 then (100:ℚ) else 80) * (1/2) +
       (if |f.leftTorsoAngle - f.rightTorsoAngle| < 15 then (100:ℚ) else 60) * (1/2)))
  { s with
    phaseRef := newPhase,
    formScores := if repCounted then s.formScores ++ [repForm] else s.formScores,
    metrics := { s.metrics with
      repCount := if repCounted then s.metrics.repCount + 1 else s.metrics.repCount,
      phase := if isUpright then "active" else "rest",
      formQuality := if isUpright then "good" else if isLying then "good" else "warning",
      formScore :=
        if repCounted then
          jsRound (((s.formScores.sum + 85 : ℤ) : ℚ) / ((s.formScores.length + 1 : ℕ) : ℚ))
        else s.metrics.formScore } }

/-- `processSquats` from useActivityLogic.js. The half-squat branch of the
source is an empty block and has no effect. -/
def processSquats (s : SessionState) (f : FrameFeatures) : SessionState :=
  let avgKneeAngle := (f.leftKneeAngle + f.rightKneeAngle) / 2
  let isDown := avgKneeAngle < 95
  let isUp := avgKneeAngle > 165
  let isHalfSquat := avgKneeAngle ≥ 95 ∧ avgKneeAngle ≤ 120
  let depthPercent : ℤ :=
    jsRound (max 0 (min 100 ((180 - avgKneeAngle) / (180 - 70) * 100)))
  let step :=
    if s.phaseRef = .idle ∧ isUp then (Phase3.up, false)
    else if s.phaseRef = .up ∧ isDown then (Phase3.down, false)
    else if s.phaseRef = .down ∧ isUp then (Phase3.up, true)
    else (s.phaseRef, false)
  let newPhase := step.1
  let repCounted := step.2
  let symmetry := |f.leftKneeAngle - f.rightKneeAngle|
  let repForm : ℤ :=
    min 100 (jsRound
      ((if depthPercent > 60 then (100:ℚ) else (depthPercent : ℚ) * (3/2)) * (6/10) +
       (if symmetry < 10 then (100:ℚ) else max 0 (100 - symmetry * 3)) * (4/10)))
  { s with
    phaseRef := newPhase,
    formScores := if repCounted then s.formScores ++ [repForm] else s.formScores,
    metrics := { s.metrics with
      repCount := if repCounted then s.metrics.repCount + 1 else s.metrics.repCount,
      depthPercent := depthPercent,
      phase := if isDown then "active" else "rest",
      formQuality := if isDown then "good" else if isHalfSquat then "warning" else "good",
      formScore :=
        if repCounted then
          jsRound (((s.formScores.sum + 85 : ℤ) : ℚ) / ((s.formScores.length + 1 : ℕ) : ℚ))
        else s.metrics.formScore } }

/-- `processBroadJump` from useActivityLogic.js (the trailing display-only
`jointAngles` update is omitted). -/
def processBroadJump (s : SessionState) (f : FrameFeatures) : SessionState :=
  let afterDetect :=
    match s.prevHipY with
    | none => s
    | some prevY =>
      let hipDelta := prevY - f.hipMidY
      let jumpStart1 :=
        if hipDelta > 3/100 ∧ s.jumpStart = none then
          some (JumpSnap.mk f.hipMidX f.hipMidY f.ankleMidX f.ankleMidY)
        else s.jumpStart
      match jumpStart1 with
      | some js =>
        if hipDelta < -(1/100) then
          let horizontalDisplacement := |f.hipMidX - js.hipX|
          let estimatedDistance : ℤ := jsRound (horizontalDisplacement * 300)
          let torsoLean := |f.hipMidX - f.ankleMidX|
          let isValidJump := torsoLean < 15/100
          if isValidJump ∧ estimatedDistance > 10 then
            let formScore : ℤ :=
              min 100 (jsRound
                ((if estimatedDistance > 100 then (100:ℚ) else (estimatedDistance : ℚ))
                    * (7/10) +
                 (if isValidJump then (100:ℚ) else 40) * (3/10)))
            { s with
              jumpStart := none,
              formScores := s.formScores ++ [formScore],
              metrics := { s.metrics with
                jumpDistance := max s.metrics.jumpDistance estimatedDistance,
                repCount := s.metrics.repCount + 1,
                formScore := formScore,
                formQuality := if isValidJump then "good" else "bad",
                phase := "active" } }
          else if ¬ isValidJump then
            { s with
              jumpStart := none,
              metrics := { s.metrics with formQuality := "bad", phase := "rest" } }
          else
            { s with jumpStart := none }
        else
          { s with jumpStart := jumpStart1 }
      | none => { s with jumpStart := jumpStart1 }
  { afterDetect with prevHipY := some f.hipMidY }

/-- `processFrame` from useActivityLogic.js: bumps the total-frame counter,
then dispatches on the activity key; an unknown key matches no switch case. -/
def processFrame (activity : String) (s : SessionState) (f : FrameFeatures) :
    SessionState :=
  let s' := { s with totalFrames := s.totalFrames + 1 }
  if activity = "wall-sit" then processWallSit s' f
  else if activity = "sit-ups" then processSitUps s' f
  else if activity = "squats" then processSquats s' f
  else if activity = "broad-jump" then processBroadJump s' f
  else s'

end ActivityLogic

namespace ActivityLogic

lemma repCount_processWallSit (s : SessionState) (f : FrameFeatures) :
    (processWallSit s f).metrics.repCount = s.metrics.repCount := rfl

lemma repCount_processSitUps (s : SessionState) (f : FrameFeatures) :
    s.metrics.repCount ≤ (processSitUps s f).metrics.repCount := by
  unfold processSitUps
  dsimp only
  split_ifs <;> omega

lemma repCount_processSquats (s : SessionState) (f : FrameFeatures) :
    s.metrics.repCount ≤ (processSquats s f).metrics.repCount := by
  unfold processSquats
  dsimp only
  split_ifs <;> omega

lemma repCount_processBroadJump (s : SessionState) (f : FrameFeatures) :
    s.metrics.repCount ≤ (processBroadJump s f).metrics.repCount := by
  unfold processBroadJump
  dsimp only
  split
  · exact le_refl _
  · split
    · split_ifs <;> simp
    · exact le_refl _

end ActivityLogic

/-- C5. For every activity key, session state and frame, one step of
`processFrame` never decreases the session's `repCount`. -/
theorem c5_rep_count_monotone (activity : String) (s : ActivityLogic.SessionState)
    (f : ActivityLogic.FrameFeatures) :
    s.metrics.repCount ≤ (ActivityLogic.processFrame activity s f).metrics.repCount := by
  unfold ActivityLogic.processFrame
  dsimp only
  split_ifs
  · rw [ActivityLogic.repCount_processWallSit]
  · exact ActivityLogic.repCount_processSitUps
      { s with totalFrames := s.totalFrames + 1 } f
  · exact ActivityLogic.repCount_processSquats
      { s with totalFrames := s.totalFrames + 1 } f
  · exact ActivityLogic.repCount_processBroadJump
      { s with totalFrames := s.totalFrames + 1 } f
  · exact le_refl _

/-- A synthetic squat frame with both knee angles equal to `a` (remaining
features unused by `processSquats`). -/
def squatFrame (a : ℚ) : ActivityLogic.FrameFeatures := ⟨a, a, 0, 0, 0, 0, 0, 0, 0⟩

/-- The session state after feeding knee angles [170, 170, 90, 90, 170]
through the squat processor from a fresh session. -/
def squatDemoFinal : ActivityLogic.SessionState :=
  (([170, 170, 90, 90, 170] : List ℚ).map squatFrame).foldl
    (ActivityLogic.processFrame "squats") ActivityLogic.initialState

/-- C7. Feeding knee angles [170, 170, 90, 90, 170] to the squat detector
from idle increments `repCount` exactly once, but the `depthPercent`
reported with the completed rep is 9, not greater than 60: at the
completing frame the knee angle is back above 165°, so the instantaneous
depth is ≈9% and the rep's form score takes the shallow-depth branch
(score 48). The rep completion requires `avgKneeAngle > 165`, hence
`depthPercent ≤ 14 < 60` at every completed rep, making the deep-squat
branch of the form score unreachable. -/
theorem c7_squat_depth_at_completion :
    squatDemoFinal.metrics.repCount = 1 ∧
    squatDemoFinal.metrics.depthPercent = 9 ∧
    squatDemoFinal.formScores = [48] := by
  have hd : ∀ (s : ActivityLogic.SessionState) (f : ActivityLogic.FrameFeatures),
      ActivityLogic.processFrame "squats" s f
        = ActivityLogic.processSquats { s with totalFrames := s.totalFrames + 1 } f :=
    fun s f => rfl
  have h1 : ActivityLogic.processFrame "squats" ActivityLogic.initialState
      (squatFrame 170)
      = ⟨⟨0, 0, 0, 0, 0, 9, 0, "rest", "good"⟩, [], Phase3.up, none, 0, 1, none, none⟩ := by
    rw [hd]
    norm_num [ActivityLogic.processSquats, ActivityLogic.initialState, squatFrame,
      jsRound, min_def, max_def, abs]
  have h2 : ActivityLogic.processFrame "squats"
      ⟨⟨0, 0, 0, 0, 0, 9, 0, "rest", "good"⟩, [], Phase3.up, none, 0, 1, none, none⟩
      (squatFrame 170)
      = ⟨⟨0, 0, 0, 0, 0, 9, 0, "rest", "good"⟩, [], Phase3.up, none, 0, 2, none, none⟩ := by
    rw [hd]
    norm_num [ActivityLogic.processSquats, squatFrame, jsRound, min_def, max_def, abs]
    all_goals decide
  have h3 : ActivityLogic.processFrame "squats"
      ⟨⟨0, 0, 0, 0, 0, 9, 0, "rest", "good"⟩, [], Phase3.up, none, 0, 2, none, none⟩
      (squatFrame 90)
      = ⟨⟨0, 0, 0, 0, 0, 82, 0, "active", "good"⟩, [], Phase3.down, none, 0, 3, none, none⟩ := by
    rw [hd]
    norm_num [ActivityLogic.processSquats, squatFrame, jsRound, min_def, max_def, abs]
  have h4 : ActivityLogic.processFrame "squats"
      ⟨⟨0, 0, 0, 0, 0, 82, 0, "active", "good"⟩, [], Phase3.down, none, 0, 3, none, none⟩
      (squatFrame 90)
      = ⟨⟨0, 0, 0, 0, 0, 82, 0, "active", "good"⟩, [], Phase3.down, none, 0, 4, none, none⟩ := by
    rw [hd]
    norm_num [ActivityLogic.processSquats, squatFrame, jsRound, min_def, max_def, abs]
  have h5 : ActivityLogic.processFrame "squats"
      ⟨⟨0, 0, 0, 0, 0, 82, 0, "active", "good"⟩, [], Phase3.down, none, 0, 4, none, none⟩
      (squatFrame 170)
      = ⟨⟨1, 85, 0, 0, 0, 9, 0, "rest", "good"⟩, [48], Phase3.up, none, 0, 5, none, none⟩ := by
    rw [hd]
    norm_num [ActivityLogic.processSquats, squatFrame, jsRound, min_def, max_def, abs]
    all_goals decide
  have efin : squatDemoFinal
      = ⟨⟨1, 85, 0, 0, 0, 9, 0, "rest", "good"⟩, [48], Phase3.up, none, 0, 5, none, none⟩ := by
    unfold squatDemoFinal
    simp only [List.map_cons, List.map_nil, List.foldl_cons, List.foldl_nil]
    rw [h1, h2, h3, h4, h5]
  rw [efin]
  norm_num

/-- C8. Once the wall-sit timer has started (`startTime = some t`), no
later frame of the session resets it — `processWallSit` preserves the
start time whatever the posture — and the reported `holdDuration` is the
elapsed wall-clock time `⌊(now − t)/1000⌋` from that first valid frame. -/
theorem c8_wall_sit_timer_never_resets (s : ActivityLogic.SessionState)
    (f : ActivityLogic.FrameFeatures) (t : ℚ)
    (h : s.startTime = some t) :
    (ActivityLogic.processWallSit s f).startTime = some t ∧
    (ActivityLogic.processWallSit s f).metrics.holdDuration = ⌊(f.now - t) / 1000⌋ := by
  unfold ActivityLogic.processWallSit
  dsimp only
  rw [h]
  constructor <;> split_ifs <;> simp

/-- Mid-session wall-sit state: the timer started at t = 1000 ms. -/
def wallSitMidState : ActivityLogic.SessionState :=
  { ActivityLogic.initialState with
      startTime := some 1000
      totalFrames := 10
      stableFrames := 5 }

/-- A wall-sit frame with invalid posture (knee angles 170°) at t = 5000 ms. -/
def wallSitBadFrame : ActivityLogic.FrameFeatures := ⟨170, 170, 0, 0, 0, 0, 0, 0, 5000⟩

/-- C8 witness: an invalid-posture frame at 5000 ms leaves the timer start
at 1000 ms and reports 4 s of hold. -/
theorem c8_wall_sit_timer_witness :
    (ActivityLogic.processWallSit wallSitMidState wallSitBadFrame).startTime
        = some 1000 ∧
    (ActivityLogic.processWallSit wallSitMidState wallSitBadFrame).metrics.holdDuration
        = 4 := by
  have h := c8_wall_sit_timer_never_resets wallSitMidState wallSitBadFrame 1000 rfl
  refine ⟨h.1, ?_⟩
  rw [h.2]
  norm_num [wallSitBadFrame]

namespace PushUpTest

/-- The per-session state of the push-up detector in PushUpTest.jsx:
`phaseRef`, `reps`, `incompleteReps`, `formScoresRef`, the displayed
`formScore`, and `repTimes` (`Date.now()` per counted rep). -/
structure PUState where
  phase : Phase3
  reps : ℕ
  incompleteReps : ℕ
  formScores : List ℤ
  formScore : ℤ
  repTimes : List ℚ
deriving DecidableEq

/-- The push-up state right after `handleStart`. -/
def puInitial : PUState := ⟨.idle, 0, 0, [], 100, []⟩

/-- One run of the push-up frame-processing effect of PushUpTest.jsx,
consuming the elbow angles (`calculateAngle` shoulder-elbow-wrist) and the
body angle (`calculateAngle` shoulder-hip-ankle). -/
def pushUpStep (s : PUState) (leftElbowAngle rightElbowAngle bodyAngle now : ℚ) :
    PUState :=
  let avgElbow := (leftElbowAngle + rightElbowAngle) / 2
  let bodyAligned := bodyAngle > 150
  let isDown := avgElbow < 100
  let isUp := avgElbow > 155
  if s.phase = .idle ∧ isUp then { s with phase := .up }
  else if s.phase = .up ∧ isDown then { s with phase := .down }
  else if s.phase = .down ∧ isUp then
    let repForm : ℤ := if bodyAligned then (if avgElbow > 160 then 95 else 80) else 55
    let formScores' := s.formScores ++ [repForm]
    let s1 :=
      if repForm > 50 then
        { s with reps := s.reps + 1, repTimes := s.repTimes ++ [now] }
      else
        { s with incompleteReps := s.incompleteReps + 1 }
    { s1 with phase := .up
              formScores := formScores'
              formScore := jsRound ((formScores'.sum : ℚ) / (formScores'.length : ℚ)) }
  else s

end PushUpTest

/-- C3 counterexample. The claim says push-up phase transitions are gated
by shoulder-hip-ankle straightness > 150°; they are not: with body angle
120° (misaligned) and elbow angles 170°, the idle state still transitions
to `up`. -/
theorem c3_counterexample :
    ¬ (∀ (s : PushUpTest.PUState) (l r b now : ℚ),
        (PushUpTest.pushUpStep s l r b now).phase ≠ s.phase → b > 150) := by
  intro h
  have hb := h ⟨Phase3.idle, 0, 0, [], 100, []⟩ 170 170 120 0 (by
    norm_num [PushUpTest.pushUpStep]
    all_goals decide)
  norm_num at hb

/-- C3 (amended). Push-up phase transitions depend only on the average
elbow angle with hysteresis (idle→up and down→up when > 155°, up→down when
< 100°) and are independent of the body-straightness angle; the
straightness only selects the per-rep form score appended on a down→up
completion: 95 when aligned (> 150°) with full extension (> 160°), 80 when
aligned only, 55 when misaligned. -/
theorem c3_push_up_hysteresis_and_form (s : PushUpTest.PUState)
    (l r b b' now : ℚ) :
    ((PushUpTest.pushUpStep s l r b now).phase
        = (PushUpTest.pushUpStep s l r b' now).phase) ∧
    (s.phase = Phase3.idle ∧ (l + r) / 2 > 155 →
       (PushUpTest.pushUpStep s l r b now).phase = Phase3.up) ∧
    (s.phase = Phase3.up ∧ (l + r) / 2 < 100 →
       (PushUpTest.pushUpStep s l r b now).phase = Phase3.down) ∧
    (s.phase = Phase3.down ∧ (l + r) / 2 > 155 →
       (PushUpTest.pushUpStep s l r b now).phase = Phase3.up ∧
       (PushUpTest.pushUpStep s l r b now).formScores
         = s.formScores ++
             [if b > 150 then (if (l + r) / 2 > 160 then (95:ℤ) else 80) else 55]) := by
  refine ⟨?_, ?_, ?_, ?_⟩
  · unfold PushUpTest.pushUpStep
    dsimp only
    split_ifs <;> rfl
  · rintro ⟨hp, hu⟩
    unfold PushUpTest.pushUpStep
    dsimp only
    rw [if_pos ⟨hp, hu⟩]
  · rintro ⟨hp, hdn⟩
    unfold PushUpTest.pushUpStep
    dsimp only
    rw [if_neg, if_pos ⟨hp, hdn⟩]
    intro hc
    rw [hp] at hc
    exact Phase3.noConfusion hc.1
  · rintro ⟨hp, hu⟩
    unfold PushUpTest.pushUpStep
    dsimp only
    rw [if_neg, if_neg, if_pos ⟨hp, hu⟩]
    · exact ⟨rfl, rfl⟩
    · intro hc
      rw [hp] at hc
      exact Phase3.noConfusion hc.1
    · intro hc
      rw [hp] at hc
      exact Phase3.noConfusion hc.1

/-- C3 witness: from the `down` phase with elbows at 170°, an aligned body
(160°) completes a rep with form score 95 into the history, and the
transition happens likewise when misaligned (120°), scoring 55. -/
theorem c3_push_up_witness :
    (PushUpTest.pushUpStep ⟨Phase3.down, 0, 0, [], 100, []⟩ 170 170 160 0).phase
        = Phase3.up ∧
    (PushUpTest.pushUpStep ⟨Phase3.down, 0, 0, [], 100, []⟩ 170 170 160 0).formScores
        = [95] ∧
    (PushUpTest.pushUpStep ⟨Phase3.down, 0, 0, [], 100, []⟩ 170 170 120 0).formScores
        = [55] := by
  have ha := (c3_push_up_hysteresis_and_form ⟨Phase3.down, 0, 0, [], 100, []⟩
    170 170 160 120 0).2.2.2 ⟨rfl, by norm_num⟩
  have hm := (c3_push_up_hysteresis_and_form ⟨Phase3.down, 0, 0, [], 100, []⟩
    170 170 120 160 0).2.2.2 ⟨rfl, by norm_num⟩
  refine ⟨ha.1, ?_, ?_⟩
  · rw [ha.2]
    norm_num
  · rw [hm.2]
    norm_num

namespace CombatReaction

/-- Phases of the reaction-challenge round in CombatReaction.jsx. -/
inductive RPhase where
  | idle
  | waiting
  | prompt
  | result
deriving DecidableEq

/-- Round state of `ReactionChallengeMode`: the `phase` state, the
`detectedRef` flag, the `promptTimeRef` stamp, whether `prevWristRef`
holds a previous frame's wrists, and the `onResult` events emitted so far
as (type, value) pairs. -/
structure RState where
  phase : RPhase
  detected : Bool
  promptTime : ℚ
  prevSet : Bool
  results : List (String × ℤ)
deriving DecidableEq

/-- The scheduler events of one round: the delayed prompt callback, one
run of the movement-detection effect (with the max wrist/ankle velocity it
computes), and the 3000 ms auto-expire callback. -/
inductive REvent where
  | promptShown (now : ℚ)
  | frame (maxVel now : ℚ)
  | timeoutFire
deriving DecidableEq

/-- `VELOCITY_THRESHOLD` of the movement-detection effect. -/
def velocityThreshold : ℚ := 4/100

/-- One event step of `ReactionChallengeMode`: the prompt callback sets
`phase = 'prompt'` and stamps `promptTimeRef`; the movement effect bails
out unless the phase is `prompt` and nothing was detected, then records a
response when the velocity exceeds the threshold (and always refreshes the
wrist snapshot); the auto-expire callback emits the 3000 ms timeout result
unless a response was already recorded. -/
def rstep (s : RState) (e : REvent) : RState :=
  match e with
  | .promptShown now => { s with phase := .prompt, promptTime := now }
  | .frame maxVel now =>
    if s.phase ≠ .prompt ∨ s.detected then s
    else
      let s1 :=
        if s.prevSet ∧ maxVel > velocityThreshold then
          { s with detected := true
                   phase := .result
                   results := s.results ++ [("reaction", jsRound (now - s.promptTime))] }
        else s
      { s1 with prevSet := true }
  | .timeoutFire =>
    if s.detected = false then
      { s with phase := .result, results := s.results ++ [("reaction", 3000)] }
    else s

/-- A frame event whose computed velocity stays at or below the
threshold. -/
def isQuietFrame : REvent → Prop
  | .frame v _ => v ≤ velocityThreshold
  | _ => False

/-- Any movement-detection frame event. -/
def isFrame : REvent → Prop
  | .frame _ _ => True
  | _ => False

lemma rstep_quiet (s : RState) (e : REvent) (hq : isQuietFrame e)
    (hp : s.phase = RPhase.prompt) (hd : s.detected = false) :
    (rstep s e).phase = RPhase.prompt ∧ (rstep s e).detected = false ∧
    (rstep s e).results = s.results := by
  cases e with
  | promptShown now => simp [isQuietFrame] at hq
  | timeoutFire => simp [isQuietFrame] at hq
  | frame v now =>
    have hv : ¬ v > velocityThreshold := not_lt.mpr hq
    have hc1 : ¬ (s.phase ≠ RPhase.prompt ∨ s.detected = true) := by
      rintro (hne | hdet)
      · exact hne hp
      · rw [hd] at hdet
        exact Bool.noConfusion hdet
    have hc2 : ¬ (s.prevSet = true ∧ v > velocityThreshold) := by
      rintro ⟨-, hgt⟩
      exact hv hgt
    unfold rstep
    dsimp only
    rw [if_neg hc1]
    simp only [if_neg hc2]
    exact ⟨hp, hd, trivial⟩

lemma foldl_quiet (pre : List REvent) (s : RState)
    (hpre : ∀ e ∈ pre, isQuietFrame e)
    (hp : s.phase = RPhase.prompt) (hd : s.detected = false) :
    (pre.foldl rstep s).phase = RPhase.prompt ∧
    (pre.foldl rstep s).detected = false ∧
    (pre.foldl rstep s).results = s.results := by
  induction pre generalizing s with
  | nil => exact ⟨hp, hd, rfl⟩
  | cons e rest ih =>
    rw [List.foldl_cons]
    obtain ⟨h1, h2, h3⟩ := rstep_quiet s e (hpre e (by simp)) hp hd
    obtain ⟨g1, g2, g3⟩ := ih (rstep s e) (fun x hx => hpre x (by simp [hx])) h1 h2
    exact ⟨g1, g2, by rw [g3, h3]⟩

lemma foldl_frames_after_result (post : List REvent) (s : RState)
    (hpost : ∀ e ∈ post, isFrame e) (hp : s.phase = RPhase.result) :
    post.foldl rstep s = s := by
  induction post generalizing s with
  | nil => rfl
  | cons e rest ih =>
    have hstep : rstep s e = s := by
      cases e with
      | promptShown now =>
        have hfe := hpost (REvent.promptShown now) (List.mem_cons_self _ _)
        simp [isFrame] at hfe
      | timeoutFire =>
        have hfe := hpost REvent.timeoutFire (List.mem_cons_self _ _)
        simp [isFrame] at hfe
      | frame v now =>
        have hcond : s.phase ≠ RPhase.prompt ∨ s.detected = true := by
          left
          rw [hp]
          intro hc
          exact RPhase.noConfusion hc
        unfold rstep
        dsimp only
        rw [if_pos hcond]
    rw [List.foldl_cons, hstep]
    exact ih s (fun x hx => hpost x (by simp [hx])) hp

end CombatReaction

/-- C9. In a reaction round in the prompt phase with no response recorded,
if every movement frame before the 3000 ms auto-expire stays at or below
the velocity threshold, the round resolves to exactly one additional
result `("reaction", 3000)` — later frames emit nothing — and the timeout
callback is idempotent: it emits nothing when a response has already been
recorded. -/
theorem c9_reaction_timeout (s₀ : CombatReaction.RState)
    (pre post : List CombatReaction.REvent)
    (h₀p : s₀.phase = CombatReaction.RPhase.prompt)
    (h₀d : s₀.detected = false)
    (hpre : ∀ e ∈ pre, CombatReaction.isQuietFrame e)
    (hpost : ∀ e ∈ post, CombatReaction.isFrame e) :
    ((pre ++ CombatReaction.REvent.timeoutFire :: post).foldl
        CombatReaction.rstep s₀).results
      = s₀.results ++ [("reaction", 3000)] ∧
    (∀ s : CombatReaction.RState, s.detected = true →
      CombatReaction.rstep s CombatReaction.REvent.timeoutFire = s) := by
  constructor
  · rw [List.foldl_append, List.foldl_cons]
    obtain ⟨hp, hd, hres⟩ := CombatReaction.foldl_quiet pre s₀ hpre h₀p h₀d
    set s' := pre.foldl CombatReaction.rstep s₀ with hs'
    have hstep : CombatReaction.rstep s' CombatReaction.REvent.timeoutFire
        = { s' with phase := CombatReaction.RPhase.result,
                    results := s'.results ++ [("reaction", 3000)] } := by
      unfold CombatReaction.rstep
      rw [if_pos hd]
    rw [hstep, CombatReaction.foldl_frames_after_result post _ hpost rfl, hres]
  · intro s hs
    unfold CombatReaction.rstep
    rw [if_neg]
    simp [hs]

/-- Concrete quiet round for the C9 witness: one sub-threshold frame, the
timeout, then one vigorous frame after the round resolved. -/
def quietRoundState : CombatReaction.RState :=
  ⟨CombatReaction.RPhase.prompt, false, 0, true, []⟩

/-- C9 witness: the quiet round emits exactly `("reaction", 3000)`. -/
theorem c9_reaction_timeout_witness :
    (([CombatReaction.REvent.frame (1/100) 500] ++
        CombatReaction.REvent.timeoutFire :: [CombatReaction.REvent.frame 1 4000]).foldl
      CombatReaction.rstep quietRoundState).results = [("reaction", 3000)] := by
  have h := (c9_reaction_timeout quietRoundState
    [CombatReaction.REvent.frame (1/100) 500]
    [CombatReaction.REvent.frame 1 4000]
    rfl rfl
    (by
      intro e he
      simp only [List.mem_singleton] at he
      subst he
      show (1:ℚ)/100 ≤ CombatReaction.velocityThreshold
      norm_num [CombatReaction.velocityThreshold])
    (by
      intro e he
      simp only [List.mem_singleton] at he
      subst he
      trivial)).1
  simpa using h
